import Mathlib

/-!
Shallow embedding of the ColonySimulator gas subsystem
(`src/gasses/air_compartment.py`, `airtank.py`, `air_valve.py`,
`air_graph.py`, `chemical.py`).

Machine floats are modelled by exact reals.  Python runtime failures
(`ValueError` from `math.sqrt`/`math.log`, `ZeroDivisionError`,
`TypeError`, `AssertionError`, `IndexError`) are modelled explicitly:
fallible operations return `Except PyErr _`, and the mutating
compartment primitives return the mutated state together with an
`Option PyErr` (Python's `assert` fires after the in-place mutation, so
the mutated state survives the failure).
-/

namespace ColonySim

/-- Python runtime error classes relevant to the embedded code. -/
inductive PyErr where
  | valueError
  | zeroDivisionError
  | typeError
  | assertionError
  | indexError
deriving DecidableEq

/-- Species vector in the fixed order [O2, CO2, N2, H2O] (`air.py`). -/
abbrev Vec4 := Fin 4 → ℝ

/-- Python float division: raises `ZeroDivisionError` on a zero divisor. -/
noncomputable def pyDiv (a b : ℝ) : Except PyErr ℝ :=
  if b = 0 then .error .zeroDivisionError else .ok (a / b)

/-- Python `math.log`: raises `ValueError` (math domain error) on a
nonpositive argument. -/
noncomputable def pyLog (x : ℝ) : Except PyErr ℝ :=
  if x ≤ 0 then .error .valueError else .ok (Real.log x)

/-- Python `math.sqrt`: raises `ValueError` (math domain error) on a
negative argument. -/
noncomputable def pySqrt (x : ℝ) : Except PyErr ℝ :=
  if x < 0 then .error .valueError else .ok (Real.sqrt x)

/-- Python list indexing `l[i]`: raises `IndexError` out of range
(the sources only index with nonnegative indices). -/
def pyGet (l : List ℝ) (i : ℕ) : Except PyErr ℝ :=
  match l.get? i with
  | some x => .ok x
  | none => .error .indexError

/-- State of `AirCompartment` (`src/gasses/air_compartment.py`): a fixed
volume, a species-density vector, and the per-species filter mask
(present in the source constructor; unused by the embedded operations,
exactly as in the source methods). -/
structure AirCompartment where
  volume : ℝ
  densities : Vec4
  filter : Fin 4 → Bool

/-- Embeds `AirCompartment.apply_flux(fluxes, dt, **kwargs)`:
`densities += fluxes*dt` in mode "density", `densities += fluxes*dt/volume`
otherwise, followed by `assert np.all(densities >= 0)`.  The mutation
happens before the assertion, so the returned state always carries the
updated densities; the `Option PyErr` component records whether the
assertion fired. -/
noncomputable def AirCompartment.apply_flux (c : AirCompartment)
    (fluxes : Vec4) (dt : ℝ) (mode : String) : AirCompartment × Option PyErr :=
  let d : Vec4 :=
    if mode = "density" then fun i => c.densities i + fluxes i * dt
    else fun i => c.densities i + fluxes i * dt / c.volume
  ({ c with densities := d },
   if ∀ i, 0 ≤ d i then none else some .assertionError)

/-- Embeds `AirCompartment.add_gas(amounts, **kwargs)`:
`densities += amounts` in mode "density", `densities += amounts/volume`
otherwise, followed by `assert np.all(densities >= 0)`. -/
noncomputable def AirCompartment.add_gas (c : AirCompartment)
    (amounts : Vec4) (mode : String) : AirCompartment × Option PyErr :=
  let d : Vec4 :=
    if mode = "density" then fun i => c.densities i + amounts i
    else fun i => c.densities i + amounts i / c.volume
  ({ c with densities := d },
   if ∀ i, 0 ≤ d i then none else some .assertionError)

/-- State of `AirTank` (`src/gasses/airtank.py`): an `AirCompartment`
plus `max_pressure` and the flux ledger `_flux`. -/
structure AirTank where
  volume : ℝ
  densities : Vec4
  maxPressure : ℝ
  flux : Vec4

/-- Embeds `AirTank.apply_flux(fluxes, dt, **kwargs)`:
`delta = fluxes` in mode "density" else `fluxes/volume`;
`densities += delta*dt`; `_flux += delta`; `assert np.all(densities >= 0)`.
As for compartments, the mutation precedes the assertion. -/
noncomputable def AirTank.apply_flux (t : AirTank)
    (fluxes : Vec4) (dt : ℝ) (mode : String) : AirTank × Option PyErr :=
  let delta : Vec4 :=
    if mode = "density" then fluxes else fun i => fluxes i / t.volume
  let d : Vec4 := fun i => t.densities i + delta i * dt
  ({ t with densities := d, flux := fun i => t.flux i + delta i },
   if ∀ i, 0 ≤ d i then none else some .assertionError)

/-- Species index `air.O2_INDEX = 0` (src/gasses/air.py). -/
def O2_INDEX : Fin 4 := 0

/-- Species index `air.CO2_INDEX = 1` (src/gasses/air.py). -/
def CO2_INDEX : Fin 4 := 1

/-- Species index `air.N2_INDEX = 2` (src/gasses/air.py). -/
def N2_INDEX : Fin 4 := 2

/-- Species index `air.H2O_INDEX = 3` (src/gasses/air.py). -/
def H2O_INDEX : Fin 4 := 3

/-- Modelled from the spec: the `chemicals` instance module (the
per-species `Gas` objects with their molar masses) is not under `src/`;
only `chemical.py` with the class definitions is.  Standard molar
masses in g/mol for [O2, CO2, N2, H2O], the spec's fixed species
order. -/
noncomputable def molarMasses : Vec4 := ![31.9988, 44.0095, 28.0134, 18.01528]

/-- Embeds `air.GAS_CONSTANTS` (src/gasses/air.py): per-species gas
constants built as `Gas.gas_constant = 8314.4598 / molar_mass`
(src/gasses/chemical.py, `Gas.UNIVERSAL_GAS_CONSTANT`). -/
noncomputable def GAS_CONSTANTS : Vec4 := fun i => 8314.4598 / molarMasses i

/-- Embeds `AirCompartment.get_o2_density`. -/
noncomputable def AirCompartment.get_o2_density (c : AirCompartment) : ℝ :=
  c.densities O2_INDEX

/-- Embeds `AirCompartment.get_co2_density`. -/
noncomputable def AirCompartment.get_co2_density (c : AirCompartment) : ℝ :=
  c.densities CO2_INDEX

/-- Embeds `AirCompartment.get_volume`. -/
def AirCompartment.get_volume (c : AirCompartment) : ℝ := c.volume

/-- State of `AirValve` (src/gasses/air_valve.py): the two areas, the
open flag (initially `False`), and the last computed species fluxes. -/
structure AirValve where
  open_area : ℝ
  closed_area : ℝ
  is_open : Bool
  o2_flux : ℝ
  co2_flux : ℝ

/-- Embeds `AirValve.O2_GAS_CONSTANT` (J/kg K). -/
noncomputable def O2_GAS_CONSTANT : ℝ := 259.820619394

/-- Embeds `AirValve.CO2_GAS_CONSTANT` (J/kg K). -/
noncomputable def CO2_GAS_CONSTANT : ℝ := 188.915903565

/-- Embeds `AirValve.get_area()`: `open_area` if open else `closed_area`. -/
noncomputable def AirValve.get_area (v : AirValve) : ℝ :=
  if v.is_open then v.open_area else v.closed_area

/-- Embeds the helper `density_flux(rho1, rho2, two_rt, area, volume)`
local to `AirValve.compute_flux`:
`rho1 * area / volume * math.sqrt(two_rt * math.log(rho2 / rho1))`.
Python evaluates `rho1 * area / volume` first (raising
`ZeroDivisionError` on a zero volume), then the ratio `rho2 / rho1`
(raising `ZeroDivisionError` when `rho1 == 0`), then `math.log`
(raising `ValueError` on a nonpositive argument), then `math.sqrt`
(raising `ValueError` on a negative argument). -/
noncomputable def density_flux (rho1 rho2 two_rt area volume : ℝ) :
    Except PyErr ℝ := do
  let lhs ← pyDiv (rho1 * area) volume
  let ratios ← pyDiv rho2 rho1
  let lg ← pyLog ratios
  let sq ← pySqrt (two_rt * lg)
  pure (lhs * sq)

/-- Embeds `AirValve.compute_flux(temperature)`: zero area short-circuits
to zero fluxes; otherwise each species flux is computed by
`density_flux`, with the higher-density compartment passed first and a
negated result when compartment2 has the higher (or equal) density.
Reads the compartments only through their getters; any raised Python
error propagates. -/
noncomputable def AirValve.compute_flux (v : AirValve)
    (c1 c2 : AirCompartment) (temperature : ℝ) : Except PyErr AirValve :=
  let cross_sectional_area := v.get_area
  if cross_sectional_area = 0 then
    .ok { v with o2_flux := 0, co2_flux := 0 }
  else
    let two_rt_o2 := 2 * O2_GAS_CONSTANT * temperature
    let two_rt_co2 := 2 * CO2_GAS_CONSTANT * temperature
    do
    let o2f ←
      if c1.get_o2_density > c2.get_o2_density then
        density_flux c1.get_o2_density c2.get_o2_density two_rt_o2
          v.get_area c1.get_volume
      else do
        let x ← density_flux c2.get_o2_density c1.get_o2_density two_rt_o2
          v.get_area c2.get_volume
        pure (-x)
    let co2f ←
      if c1.get_co2_density > c2.get_co2_density then
        density_flux c1.get_co2_density c2.get_co2_density two_rt_co2
          cross_sectional_area c1.get_volume
      else do
        let x ← density_flux c2.get_co2_density c1.get_co2_density two_rt_co2
          cross_sectional_area c2.get_volume
        pure (-x)
    .ok { v with o2_flux := o2f, co2_flux := co2f }

/-- Embeds `AirValve.apply_flux(dt)`.  When the valve is open, the source
executes `self.compartment1.apply_flux(self._o2_flux, self._co2_flux, dt)`,
passing three positional arguments to
`AirCompartment.apply_flux(self, fluxes, dt=0.033, **kwargs)`
(src/gasses/air_compartment.py), which accepts at most two positional
arguments after `self` (`**kwargs` collects only keyword arguments):
Python raises `TypeError` at the call, before any compartment is
mutated.  When the valve is closed nothing happens. -/
def AirValve.apply_flux (v : AirValve) (c1 c2 : AirCompartment)
    (dt : ℝ) : Except PyErr (AirCompartment × AirCompartment) :=
  if v.is_open then .error .typeError
  else .ok (c1, c2)

/-- Iterates `AirValve.apply_flux` over `n` ticks on the two connected
compartments, propagating any raised error. -/
def AirValve.apply_flux_iter (v : AirValve) (dt : ℝ) :
    ℕ → AirCompartment × AirCompartment → Except PyErr (AirCompartment × AirCompartment)
  | 0, p => .ok p
  | n + 1, p => do
    let p2 ← v.apply_flux p.1 p.2 dt
    AirValve.apply_flux_iter v dt n p2

/-- Embeds `Atmosphere.PRESSURE` (Pa). -/
noncomputable def Atmosphere.PRESSURE : ℝ := 610

/-- Embeds `Atmosphere.DENSITY` (kg/m^3). -/
noncomputable def Atmosphere.DENSITY : ℝ := 0.0162

/-- Embeds the `Atmosphere` class proportions
[O2, CO2, N2, H2O] = [0.0013, 0.9532, 0.027, 0.0003]. -/
noncomputable def Atmosphere.PROPORTIONS : Vec4 := ![0.0013, 0.9532, 0.027, 0.0003]

/-- Embeds the per-species `Atmosphere` mass constants
`proportion * molar_mass_kg_mol`, with
`molar_mass_kg_mol = molar_mass * 1000` (src/gasses/chemical.py). -/
noncomputable def Atmosphere.SPECIES_MASS : Vec4 :=
  fun i => Atmosphere.PROPORTIONS i * (molarMasses i * 1000)

/-- Embeds `Atmosphere.MOLAR_MASS`, the sum of the species mass
constants. -/
noncomputable def Atmosphere.MOLAR_MASS : ℝ := ∑ i, Atmosphere.SPECIES_MASS i

/-- Embeds `Atmosphere.DENSITIES`:
`DENSITY * species_mass / MOLAR_MASS` per species. -/
noncomputable def Atmosphere.DENSITIES : Vec4 :=
  fun i => Atmosphere.DENSITY * Atmosphere.SPECIES_MASS i / Atmosphere.MOLAR_MASS

/-- Instance state of `Atmosphere` (src/gasses/air_compartment.py): the
constructor stores a temperature and inherits the compartment fields;
the inherited density array is shadowed by constant-returning getters. -/
structure Atmosphere where
  temperature : ℝ
  densities : Vec4

/-- Embeds `Atmosphere.apply_flux`: the override body is `pass`. -/
def Atmosphere.apply_flux (a : Atmosphere) (_fluxes : Vec4) (_dt : ℝ)
    (_mode : String) : Atmosphere := a

/-- Embeds `Atmosphere.add_gas`: the override body is `pass`. -/
def Atmosphere.add_gas (a : Atmosphere) (_masses : Vec4)
    (_mode : String) : Atmosphere := a

/-- Embeds `Atmosphere.get_densities()`: returns the class constant. -/
noncomputable def Atmosphere.get_densities (_a : Atmosphere) : Vec4 :=
  Atmosphere.DENSITIES

/-- Embeds `Atmosphere.get_density(index)`: the aggregate class constant
when the index is omitted, else the per-species class constant. -/
noncomputable def Atmosphere.get_density (_a : Atmosphere) :
    Option (Fin 4) → ℝ
  | none => Atmosphere.DENSITY
  | some i => Atmosphere.DENSITIES i

/-- Embeds `Atmosphere.get_pressure(index)`: the class constant
`PRESSURE` when the index is omitted, else
`temperature * GAS_CONSTANTS[index] * DENSITIES[index]`. -/
noncomputable def Atmosphere.get_pressure (a : Atmosphere) :
    Option (Fin 4) → ℝ
  | none => Atmosphere.PRESSURE
  | some i => a.temperature * GAS_CONSTANTS i * Atmosphere.DENSITIES i

/-- Embeds `Atmosphere.get_pressures()`. -/
noncomputable def Atmosphere.get_pressures (a : Atmosphere) : Vec4 :=
  fun i => a.temperature * GAS_CONSTANTS i * Atmosphere.DENSITIES i

/-- One external call against an `Atmosphere` instance: either
`apply_flux` or `add_gas`, with arbitrary argument vector and mode. -/
inductive AtmoCall where
  | applyFlux (fluxes : Vec4) (dt : ℝ) (mode : String)
  | addGas (masses : Vec4) (mode : String)

/-- Runs a sequence of `apply_flux`/`add_gas` calls on an `Atmosphere`. -/
def Atmosphere.runCalls (a : Atmosphere) : List AtmoCall → Atmosphere
  | [] => a
  | AtmoCall.applyFlux f dt m :: rest => (a.apply_flux f dt m).runCalls rest
  | AtmoCall.addGas g m :: rest => (a.add_gas g m).runCalls rest

/-- Embeds `AirTank.fill_to_capacity(source, dt)` (src/gasses/airtank.py).
`T` stands for `self.parent.get_temperature()`.  Returns the updated
tank, the updated (caller-owned, mutated in place) source vector, and
the returned `delta_mass` vector.  Exact real division replaces float
division; the claim theorems assume a positive temperature and volume,
under which the source raises nothing. -/
noncomputable def AirTank.fill_to_capacity (t : AirTank) (T : ℝ)
    (source : Vec4) (dt : ℝ) : AirTank × Vec4 × Vec4 :=
  let R := GAS_CONSTANTS
  let V := t.volume
  let densities_future : Vec4 := fun i => t.densities i + t.flux i * dt
  let S_current := ∑ i, R i * densities_future i
  let S_max := t.maxPressure / T
  let delta_S := S_max - S_current
  if delta_S ≤ 0 then (t, source, fun _ => 0)
  else
    let total_source := ∑ i, source i
    if total_source ≤ 0 then (t, source, fun _ => 0)
    else
      let ratios : Vec4 := fun i => source i / total_source
      let denom_raw := ∑ i, R i * ratios i
      if denom_raw ≤ 0 then (t, source, fun _ => 0)
      else
        let M_req := delta_S * V / denom_raw
        let M_add := min M_req total_source
        let delta_mass : Vec4 := fun i => ratios i * M_add
        ({ t with densities := fun i => t.densities i + delta_mass i / V,
                  flux := fun _ => 0 },
         fun i => source i - delta_mass i,
         delta_mass)

/-- A valve as wired into an `AirGraph`: the valve state plus the
identities of the two compartments it connects (valves in the source
hold references into the graph's shared compartment objects). -/
structure GValve where
  valve : AirValve
  c1 : ℕ
  c2 : ℕ

/-- Compartment heap of a graph, indexed by compartment identity. -/
abbrev Comps := ℕ → AirCompartment

/-- Compute phase of `AirGraph._update_airflow`: the first loop calls
`compute_flux(self.temperature)` on every valve in order.  It reads the
compartment heap but returns only the updated valves — `compute_flux`
mutates nothing beyond the valve's own flux fields. -/
noncomputable def computePhase (T : ℝ) (comps : Comps) :
    List GValve → Except PyErr (List GValve)
  | [] => .ok []
  | gv :: rest => do
    let v2 ← gv.valve.compute_flux (comps gv.c1) (comps gv.c2) T
    let rest2 ← computePhase T comps rest
    .ok ({ gv with valve := v2 } :: rest2)

/-- Apply phase of `AirGraph._update_airflow`: the second loop calls
`apply_flux(dt)` on every valve in order, threading the shared
compartment heap. -/
def applyPhase (dt : ℝ) : Comps → List GValve → Except PyErr Comps
  | comps, [] => .ok comps
  | comps, gv :: rest => do
    let p ← gv.valve.apply_flux (comps gv.c1) (comps gv.c2) dt
    applyPhase dt
      (Function.update (Function.update comps gv.c1 p.1) gv.c2 p.2) rest

/-- Embeds `AirGraph._update_airflow(dt)`: all `compute_flux` calls run
against the pre-tick compartment heap and temperature, then all
`apply_flux` calls run.  Returns the post-tick compartment heap. -/
noncomputable def AirGraph.update_airflow (T dt : ℝ) (comps : Comps)
    (valves : List GValve) : Except PyErr Comps := do
  let valves2 ← computePhase T comps valves
  applyPhase dt comps valves2

/-- Embeds the lookup loop of `Gas.specific_heat_capacity`
(src/gasses/chemical.py):
`while self._temps[i + 1] < temperature and i < len(self._temps) - 1: i += 1`.
Python evaluates the subscript `temps[i + 1]` before the short-circuit
length guard, so the loop raises `IndexError` as soon as `i + 1` falls
outside the table. -/
noncomputable def shcFindIndex (temps : List ℝ) (temperature : ℝ) (i : ℕ) :
    Except PyErr ℕ :=
  match h : temps.get? (i + 1) with
  | none => .error .indexError
  | some ti1 =>
    if ti1 < temperature ∧ i < temps.length - 1 then
      shcFindIndex temps temperature (i + 1)
    else .ok i
termination_by temps.length - i
decreasing_by
  have hlt : i + 1 < temps.length := (List.get?_eq_some.mp h).1
  omega

/-- Embeds `Gas.specific_heat_capacity(temperature)`
(src/gasses/chemical.py) over the sorted table columns `_temps` and
`_specific_heats`: linear extrapolation below the first table
temperature, otherwise the while-loop segment search followed by linear
interpolation on segment `[i, i+1]`.  Table reads are Python
subscripts (`IndexError` out of range) and the slope divisions are
Python float divisions. -/
noncomputable def Gas.specific_heat_capacity (temps shs : List ℝ)
    (temperature : ℝ) : Except PyErr ℝ := do
  let t0 ← pyGet temps 0
  if temperature < t0 then do
    let s1 ← pyGet shs 1
    let s0 ← pyGet shs 0
    let t1 ← pyGet temps 1
    let dc ← pyDiv (s1 - s0) (t1 - t0)
    pure (dc * (temperature - t0) + s0)
  else do
    let i ← shcFindIndex temps temperature 0
    let si1 ← pyGet shs (i + 1)
    let si ← pyGet shs i
    let ti1 ← pyGet temps (i + 1)
    let ti ← pyGet temps i
    let dc ← pyDiv (si1 - si) (ti1 - ti)
    pure (dc * (temperature - ti) + si)

/-! Theorems. -/

/-- Reduction of `Except` bind on a success value. -/
@[simp] theorem exceptBind_ok {ε α β : Type _} (a : α) (f : α → Except ε β) :
    (Except.ok a >>= f : Except ε β) = f a := rfl

/-- Reduction of `Except` bind on an error value. -/
@[simp] theorem exceptBind_error {ε α β : Type _} (e : ε) (f : α → Except ε β) :
    ((Except.error e : Except ε α) >>= f) = Except.error e := rfl

/-- Reduction of `pure` into the `Except` monad. -/
@[simp] theorem exceptPure {ε α : Type _} (a : α) :
    (pure a : Except ε α) = Except.ok a := rfl

/-- Success of `AirCompartment.apply_flux` is exactly non-negativity of
the updated densities. -/
theorem applyFluxC_none_iff (c : AirCompartment) (fluxes : Vec4)
    (dt : ℝ) (mode : String) :
    (c.apply_flux fluxes dt mode).2 = none ↔
      ∀ i, 0 ≤ (c.apply_flux fluxes dt mode).1.densities i := by
  simp only [AirCompartment.apply_flux]
  split_ifs <;> simp_all [not_forall, not_le]

/-- Success of `AirCompartment.add_gas` is exactly non-negativity of
the updated densities. -/
theorem addGasC_none_iff (c : AirCompartment) (amounts : Vec4)
    (mode : String) :
    (c.add_gas amounts mode).2 = none ↔
      ∀ i, 0 ≤ (c.add_gas amounts mode).1.densities i := by
  simp only [AirCompartment.add_gas]
  split_ifs <;> simp_all [not_forall, not_le]

/-- Success of `AirTank.apply_flux` is exactly non-negativity of the
updated densities. -/
theorem applyFluxT_none_iff (t : AirTank) (fluxes : Vec4)
    (dt : ℝ) (mode : String) :
    (t.apply_flux fluxes dt mode).2 = none ↔
      ∀ i, 0 ≤ (t.apply_flux fluxes dt mode).1.densities i := by
  simp only [AirTank.apply_flux]
  split_ifs <;> simp_all [not_forall, not_le]

/-- State returned by `AirCompartment.apply_flux` always carries the raw
(unclamped) density update. -/
theorem applyFluxC_densities (c : AirCompartment) (fluxes : Vec4)
    (dt : ℝ) (mode : String) :
    (c.apply_flux fluxes dt mode).1.densities =
      if mode = "density" then (fun i => c.densities i + fluxes i * dt)
      else fun i => c.densities i + fluxes i * dt / c.volume := rfl

/-- State returned by `AirCompartment.add_gas` always carries the raw
(unclamped) density update. -/
theorem addGasC_densities (c : AirCompartment) (amounts : Vec4)
    (mode : String) :
    (c.add_gas amounts mode).1.densities =
      if mode = "density" then (fun i => c.densities i + amounts i)
      else fun i => c.densities i + amounts i / c.volume := rfl

/-- State returned by `AirTank.apply_flux` always carries the raw
density update and the raw ledger update. -/
theorem applyFluxT_state (t : AirTank) (fluxes : Vec4)
    (dt : ℝ) (mode : String) :
    (t.apply_flux fluxes dt mode).1.densities = (fun i =>
        t.densities i +
          (if mode = "density" then fluxes else fun j => fluxes j / t.volume) i * dt) ∧
    (t.apply_flux fluxes dt mode).1.flux = fun i =>
        t.flux i +
          (if mode = "density" then fluxes else fun j => fluxes j / t.volume) i :=
  ⟨rfl, rfl⟩

/-- C4: an `apply_flux` or `add_gas` call on a compartment, or an
`apply_flux` call on a tank, succeeds (no assertion failure) exactly
when every post-update species density is nonnegative; a call that
would drive some density below zero fires the assertion instead of
clamping, since the reported densities are the raw update. -/
theorem claim_C4 (c : AirCompartment) (t : AirTank) (fluxes amounts : Vec4)
    (dt : ℝ) (mode : String) :
    ((c.apply_flux fluxes dt mode).2 = none ↔
      ∀ i, 0 ≤ (c.apply_flux fluxes dt mode).1.densities i) ∧
    ((c.add_gas amounts mode).2 = none ↔
      ∀ i, 0 ≤ (c.add_gas amounts mode).1.densities i) ∧
    ((t.apply_flux fluxes dt mode).2 = none ↔
      ∀ i, 0 ≤ (t.apply_flux fluxes dt mode).1.densities i) :=
  ⟨applyFluxC_none_iff c fluxes dt mode, addGasC_none_iff c amounts mode,
    applyFluxT_none_iff t fluxes dt mode⟩

/-- C10: when an `apply_flux` (or `add_gas`) call fails the
non-negativity assertion, the compartment or tank state returned
already carries the offending delta (and, for a tank, the ledger
update): the mutation is not rolled back, so a negative density
persists in the failed state. -/
theorem claim_C10 (c : AirCompartment) (t : AirTank)
    (fluxes amounts : Vec4) (dt : ℝ) (mode : String)
    (hc : (c.apply_flux fluxes dt mode).2 ≠ none)
    (hg : (c.add_gas amounts mode).2 ≠ none)
    (ht : (t.apply_flux fluxes dt mode).2 ≠ none) :
    ((c.apply_flux fluxes dt mode).1.densities =
        if mode = "density" then (fun i => c.densities i + fluxes i * dt)
        else fun i => c.densities i + fluxes i * dt / c.volume) ∧
    (∃ i, (c.apply_flux fluxes dt mode).1.densities i < 0) ∧
    ((c.add_gas amounts mode).1.densities =
        if mode = "density" then (fun i => c.densities i + amounts i)
        else fun i => c.densities i + amounts i / c.volume) ∧
    (∃ i, (c.add_gas amounts mode).1.densities i < 0) ∧
    ((t.apply_flux fluxes dt mode).1.densities = fun i =>
        t.densities i +
          (if mode = "density" then fluxes else fun j => fluxes j / t.volume) i * dt) ∧
    ((t.apply_flux fluxes dt mode).1.flux = fun i =>
        t.flux i +
          (if mode = "density" then fluxes else fun j => fluxes j / t.volume) i) ∧
    (∃ i, (t.apply_flux fluxes dt mode).1.densities i < 0) := by
  have ec : ∃ i, (c.apply_flux fluxes dt mode).1.densities i < 0 := by
    rcases not_forall.mp (fun hall =>
      hc ((applyFluxC_none_iff c fluxes dt mode).mpr hall)) with ⟨i, hi⟩
    exact ⟨i, lt_of_not_le hi⟩
  have eg : ∃ i, (c.add_gas amounts mode).1.densities i < 0 := by
    rcases not_forall.mp (fun hall =>
      hg ((addGasC_none_iff c amounts mode).mpr hall)) with ⟨i, hi⟩
    exact ⟨i, lt_of_not_le hi⟩
  have et : ∃ i, (t.apply_flux fluxes dt mode).1.densities i < 0 := by
    rcases not_forall.mp (fun hall =>
      ht ((applyFluxT_none_iff t fluxes dt mode).mpr hall)) with ⟨i, hi⟩
    exact ⟨i, lt_of_not_le hi⟩
  exact ⟨applyFluxC_densities c fluxes dt mode, ec,
    addGasC_densities c amounts mode, eg,
    (applyFluxT_state t fluxes dt mode).1,
    (applyFluxT_state t fluxes dt mode).2, et⟩

/-- C10 witness: a density-mode flux of −1 for one second on an empty
compartment and tank fails the assertion, and the failed state carries
the negative density. -/
theorem claim_C10_witness :
    ((AirCompartment.apply_flux ⟨1, fun _ => 0, fun _ => true⟩
        (fun _ => -1) 1 "density").2 ≠ none) ∧
    ((AirCompartment.add_gas ⟨1, fun _ => 0, fun _ => true⟩
        (fun _ => -1) "density").2 ≠ none) ∧
    ((AirTank.apply_flux ⟨1, fun _ => 0, 1000, fun _ => 0⟩
        (fun _ => -1) 1 "density").2 ≠ none) ∧
    (∃ i, (AirCompartment.apply_flux ⟨1, fun _ => 0, fun _ => true⟩
        (fun _ => -1) 1 "density").1.densities i < 0) := by
  have h1 : (AirCompartment.apply_flux ⟨1, fun _ => 0, fun _ => true⟩
      (fun _ => -1) 1 "density").2 ≠ none := by
    simp only [AirCompartment.apply_flux]
    rw [if_neg]
    · simp
    · push_neg
      exact ⟨0, by norm_num⟩
  have h2 : (AirCompartment.add_gas ⟨1, fun _ => 0, fun _ => true⟩
      (fun _ => -1) "density").2 ≠ none := by
    simp only [AirCompartment.add_gas]
    rw [if_neg]
    · simp
    · push_neg
      exact ⟨0, by norm_num⟩
  have h3 : (AirTank.apply_flux ⟨1, fun _ => 0, 1000, fun _ => 0⟩
      (fun _ => -1) 1 "density").2 ≠ none := by
    simp only [AirTank.apply_flux]
    rw [if_neg]
    · simp
    · push_neg
      exact ⟨0, by norm_num⟩
  exact ⟨h1, h2, h3,
    (claim_C10 ⟨1, fun _ => 0, fun _ => true⟩ ⟨1, fun _ => 0, 1000, fun _ => 0⟩
      (fun _ => -1) (fun _ => -1) 1 "density" h1 h2 h3).2.1⟩

/-- Running any call sequence on an `Atmosphere` leaves the instance
unchanged: both overrides are `pass`. -/
theorem Atmosphere.runCalls_eq (a : Atmosphere) (calls : List AtmoCall) :
    a.runCalls calls = a := by
  induction calls generalizing a with
  | nil => rfl
  | cons hd tl ih =>
    cases hd with
    | applyFlux f dt m => exact ih a
    | addGas g m => exact ih a

/-- C8: any sequence of `apply_flux`/`add_gas` calls on an `Atmosphere`
leaves the instance unchanged, so all reported densities and pressures
are the same before and after, and the density getters keep returning
the fixed class constants (`DENSITIES`, `DENSITY`, `PRESSURE`). -/
theorem claim_C8 (a : Atmosphere) (calls : List AtmoCall) :
    a.runCalls calls = a ∧
    (a.runCalls calls).get_densities = Atmosphere.DENSITIES ∧
    (a.runCalls calls).get_density = a.get_density ∧
    (a.runCalls calls).get_density none = Atmosphere.DENSITY ∧
    (a.runCalls calls).get_pressure = a.get_pressure ∧
    (a.runCalls calls).get_pressure none = Atmosphere.PRESSURE ∧
    (a.runCalls calls).get_pressures = a.get_pressures := by
  rw [Atmosphere.runCalls_eq a calls]
  exact ⟨rfl, rfl, rfl, rfl, rfl, rfl, rfl⟩

/-- C5: a closed valve's `apply_flux` is a no-op on the two connected
compartments, whatever `dt` and whatever flux values were previously
computed and stored in the valve, over any number of ticks. -/
theorem claim_C5 (v : AirValve) (c1 c2 : AirCompartment) (dt : ℝ) (n : ℕ)
    (h : v.is_open = false) :
    v.apply_flux_iter dt n (c1, c2) = .ok (c1, c2) := by
  induction n with
  | zero => rfl
  | succ n ih =>
    simp only [AirValve.apply_flux_iter, AirValve.apply_flux, h,
      Bool.false_eq_true, if_false, exceptBind_ok]
    exact ih

/-- C5 witness: a concrete closed valve with a stored nonzero flux,
iterated three ticks, leaves two concrete compartments unchanged. -/
theorem claim_C5_witness :
    (AirValve.is_open
        { open_area := 2, closed_area := 0, is_open := false,
          o2_flux := 7, co2_flux := -3 } = false) ∧
    AirValve.apply_flux_iter
        { open_area := 2, closed_area := 0, is_open := false,
          o2_flux := 7, co2_flux := -3 } 0.0333 3
        (⟨50, fun _ => 0.28, fun _ => true⟩, ⟨50, fun _ => 0.10, fun _ => true⟩) =
      .ok (⟨50, fun _ => 0.28, fun _ => true⟩, ⟨50, fun _ => 0.10, fun _ => true⟩) :=
  ⟨rfl, claim_C5
    { open_area := 2, closed_area := 0, is_open := false,
      o2_flux := 7, co2_flux := -3 }
    ⟨50, fun _ => 0.28, fun _ => true⟩ ⟨50, fun _ => 0.10, fun _ => true⟩
    0.0333 3 rfl⟩

/-- C2: evaluating the open-valve apply path on the code: an open valve's
`apply_flux` raises `TypeError` (the scalar fluxes and `dt` are passed
as three positional arguments to the vector-signature
`AirCompartment.apply_flux`), so no conservative exchange happens at
all — contrary to the claim's subtract-from-compartment1 /
add-to-compartment2 mass-conserving transfer. -/
theorem claim_C2 :
    AirValve.apply_flux
      { open_area := 0.5, closed_area := 0, is_open := true,
        o2_flux := 1, co2_flux := 0 }
      ⟨50, fun _ => 0.28, fun _ => true⟩ ⟨25, fun _ => 0.10, fun _ => true⟩
      0.0333 = .error .typeError := rfl

/-- With a nonzero volume, a nonzero leading density, a positive
density ratio whose product with `two_rt` under `math.log` is negative,
`density_flux` reaches `math.sqrt` of a negative number and raises
`ValueError`. -/
theorem density_flux_valueError (rho1 rho2 two_rt area volume : ℝ)
    (hvol : volume ≠ 0) (hrho1 : rho1 ≠ 0)
    (hpos : 0 < rho2 / rho1)
    (hneg : two_rt * Real.log (rho2 / rho1) < 0) :
    density_flux rho1 rho2 two_rt area volume = .error .valueError := by
  have h1 : ¬(rho2 / rho1 ≤ 0) := not_le.mpr hpos
  simp only [density_flux, pyDiv, pyLog, pySqrt, if_neg hvol, if_neg hrho1,
    if_neg h1, if_pos hneg, exceptBind_ok, exceptBind_error]

/-- With a zero leading density (and a nonzero volume), `density_flux`
raises `ZeroDivisionError` on the ratio `rho2 / rho1`. -/
theorem density_flux_zeroDiv (rho2 two_rt area volume : ℝ)
    (hvol : volume ≠ 0) :
    density_flux 0 rho2 two_rt area volume = .error .zeroDivisionError := by
  simp only [density_flux, pyDiv, if_neg hvol, eq_self_iff_true, if_true,
    exceptBind_ok, exceptBind_error]

/-- Whenever the valve area is nonzero and compartment1 holds the
strictly higher O2 density, with the `math.sqrt` argument negative,
`compute_flux` raises `ValueError`. -/
theorem compute_flux_gradient_error (v : AirValve) (c1 c2 : AirCompartment)
    (T : ℝ) (harea : ¬(v.get_area = 0))
    (hgt : c1.get_o2_density > c2.get_o2_density)
    (hvol : c1.get_volume ≠ 0) (hrho : c1.get_o2_density ≠ 0)
    (hpos : 0 < c2.get_o2_density / c1.get_o2_density)
    (hneg : 2 * O2_GAS_CONSTANT * T *
      Real.log (c2.get_o2_density / c1.get_o2_density) < 0) :
    v.compute_flux c1 c2 T = .error .valueError := by
  simp only [AirValve.compute_flux, if_neg harea, if_pos hgt,
    density_flux_valueError c1.get_o2_density c2.get_o2_density
      (2 * O2_GAS_CONSTANT * T) v.get_area c1.get_volume hvol hrho hpos hneg,
    exceptBind_error]

/-- Whenever the valve area is nonzero, compartment1 does not hold the
strictly higher O2 density, and compartment2's O2 density is zero
(so both are, in the non-negative regime), `compute_flux` raises
`ZeroDivisionError` on `0.0 / 0.0`. -/
theorem compute_flux_zero_error (v : AirValve) (c1 c2 : AirCompartment)
    (T : ℝ) (harea : ¬(v.get_area = 0))
    (hle : ¬(c1.get_o2_density > c2.get_o2_density))
    (hvol : c2.get_volume ≠ 0) (hzero : c2.get_o2_density = 0) :
    v.compute_flux c1 c2 T = .error .zeroDivisionError := by
  simp only [AirValve.compute_flux, if_neg harea, if_neg hle]
  rw [hzero]
  simp only [density_flux_zeroDiv c1.get_o2_density (2 * O2_GAS_CONSTANT * T)
      v.get_area c2.get_volume hvol,
    exceptBind_error]

/-- C1: evaluating `compute_flux` on the spec's concrete scenario
(room A: O2 density 0.28, room B: 0.10, volumes 50, open area 0.50,
T = 293.15): the code takes the higher-density branch and computes
`math.sqrt(2·R_O2·T·ln(0.10/0.28))` — a negative argument — so it
raises `ValueError` instead of returning the claimed positive flux
`0.10 · 0.50 · sqrt(2·R_O2·293.15·ln(0.28/0.10))` (the code also
divides by the compartment volume, which the claim excludes). -/
theorem claim_C1 :
    AirValve.compute_flux
      { open_area := 0.50, closed_area := 0, is_open := true,
        o2_flux := 0, co2_flux := 0 }
      ⟨50, ![0.28, 0, 0, 0], fun _ => true⟩
      ⟨50, ![0.10, 0, 0, 0], fun _ => true⟩
      293.15 = .error .valueError := by
  have hlog : Real.log ((0.10 : ℝ) / 0.28) < 0 :=
    Real.log_neg (by norm_num) (by norm_num)
  refine compute_flux_gradient_error _ _ _ _ ?_ ?_ ?_ ?_ ?_ ?_
  · simp only [AirValve.get_area]
    norm_num
  · simp only [AirCompartment.get_o2_density, O2_INDEX]
    norm_num
  · norm_num [AirCompartment.get_volume]
  · simp only [AirCompartment.get_o2_density, O2_INDEX]
    norm_num
  · simp only [AirCompartment.get_o2_density, O2_INDEX]
    norm_num
  · simp only [AirCompartment.get_o2_density, O2_INDEX, Matrix.cons_val_zero]
    refine mul_neg_of_pos_of_neg ?_ ?_
    · rw [O2_GAS_CONSTANT]; norm_num
    · exact hlog

/-- C6: evaluating `compute_flux` at a nonzero-area valve between two
compartments whose O2 densities are both exactly zero: the code
computes `math.log(0.0 / 0.0)` and raises `ZeroDivisionError`, instead
of the claimed total, non-raising behaviour with flux exactly 0 for a
zero gradient. -/
theorem claim_C6 :
    AirValve.compute_flux
      { open_area := 1, closed_area := 0, is_open := true,
        o2_flux := 0, co2_flux := 0 }
      ⟨50, ![0, 0, 0, 0], fun _ => true⟩
      ⟨50, ![0, 0, 0, 0], fun _ => true⟩
      293.15 = .error .zeroDivisionError := by
  refine compute_flux_zero_error _ _ _ _ ?_ ?_ ?_ ?_
  · simp only [AirValve.get_area]
    norm_num
  · simp only [AirCompartment.get_o2_density, O2_INDEX]
    norm_num
  · norm_num [AirCompartment.get_volume]
  · simp only [AirCompartment.get_o2_density, O2_INDEX]
    norm_num

/-- The apply phase either raises or returns the compartment heap
unchanged: an open valve's `apply_flux` raises `TypeError` before any
mutation, and a closed valve's `apply_flux` is a no-op. -/
theorem applyPhase_ok (dt : ℝ) : ∀ (l : List GValve) (comps res : Comps),
    applyPhase dt comps l = .ok res → res = comps := by
  intro l
  induction l with
  | nil =>
    intro comps res h
    simp only [applyPhase] at h
    exact (Except.ok.inj h).symm
  | cons gv rest ih =>
    intro comps res h
    by_cases hop : gv.valve.is_open = true
    · simp [applyPhase, AirValve.apply_flux, hop] at h
    · rw [Bool.not_eq_true] at hop
      simp only [applyPhase, AirValve.apply_flux, hop, Bool.false_eq_true,
        if_false, exceptBind_ok, Function.update_eq_self] at h
      exact ih comps res h

/-- C7: the per-tick airflow update first runs `compute_flux` for every
valve against the pre-tick compartment heap and temperature (the
compute phase returns only updated valves and cannot mutate a
compartment), and only then runs the `apply_flux` loop; whenever two
valve orderings related by a permutation both complete, they produce
the same post-tick compartment densities. -/
theorem claim_C7 (T dt : ℝ) (comps : Comps) (l1 l2 : List GValve)
    (hperm : l1.Perm l2) (c1 c2 : Comps)
    (h1 : AirGraph.update_airflow T dt comps l1 = .ok c1)
    (h2 : AirGraph.update_airflow T dt comps l2 = .ok c2) :
    c1 = c2 ∧
    AirGraph.update_airflow T dt comps l1 =
      (computePhase T comps l1 >>= fun vs => applyPhase dt comps vs) := by
  refine ⟨?_, rfl⟩
  have e1 : c1 = comps := by
    unfold AirGraph.update_airflow at h1
    cases hc : computePhase T comps l1 with
    | error e => rw [hc] at h1; exact absurd h1 (by simp [exceptBind_error])
    | ok vs =>
      rw [hc] at h1
      rw [exceptBind_ok] at h1
      exact applyPhase_ok dt vs comps c1 h1
  have e2 : c2 = comps := by
    unfold AirGraph.update_airflow at h2
    cases hc : computePhase T comps l2 with
    | error e => rw [hc] at h2; exact absurd h2 (by simp [exceptBind_error])
    | ok vs =>
      rw [hc] at h2
      rw [exceptBind_ok] at h2
      exact applyPhase_ok dt vs comps c2 h2
  rw [e1, e2]

/-- C7 witness: two closed valves (closed area 0) over a three-room
heap, iterated in the two opposite orders, both complete and agree. -/
theorem claim_C7_witness :
    (List.Perm
      [GValve.mk ⟨1, 0, false, 0, 0⟩ 0 1, GValve.mk ⟨2, 0, false, 0, 0⟩ 1 2]
      [GValve.mk ⟨2, 0, false, 0, 0⟩ 1 2, GValve.mk ⟨1, 0, false, 0, 0⟩ 0 1]) ∧
    AirGraph.update_airflow 293.15 0.0333
        (fun _ => ⟨50, fun _ => 0.2, fun _ => true⟩)
        [GValve.mk ⟨1, 0, false, 0, 0⟩ 0 1, GValve.mk ⟨2, 0, false, 0, 0⟩ 1 2] =
      .ok (fun _ => ⟨50, fun _ => 0.2, fun _ => true⟩) ∧
    AirGraph.update_airflow 293.15 0.0333
        (fun _ => ⟨50, fun _ => 0.2, fun _ => true⟩)
        [GValve.mk ⟨2, 0, false, 0, 0⟩ 1 2, GValve.mk ⟨1, 0, false, 0, 0⟩ 0 1] =
      .ok (fun _ => ⟨50, fun _ => 0.2, fun _ => true⟩) ∧
    ((fun _ => (⟨50, fun _ => 0.2, fun _ => true⟩ : AirCompartment)) : Comps) =
      (fun _ => ⟨50, fun _ => 0.2, fun _ => true⟩) := by
  have hperm : List.Perm
      [GValve.mk ⟨1, 0, false, 0, 0⟩ 0 1, GValve.mk ⟨2, 0, false, 0, 0⟩ 1 2]
      [GValve.mk ⟨2, 0, false, 0, 0⟩ 1 2, GValve.mk ⟨1, 0, false, 0, 0⟩ 0 1] :=
    List.Perm.swap (GValve.mk ⟨2, 0, false, 0, 0⟩ 1 2)
      (GValve.mk ⟨1, 0, false, 0, 0⟩ 0 1) []
  have h1 : AirGraph.update_airflow 293.15 0.0333
      (fun _ => ⟨50, fun _ => 0.2, fun _ => true⟩)
      [GValve.mk ⟨1, 0, false, 0, 0⟩ 0 1, GValve.mk ⟨2, 0, false, 0, 0⟩ 1 2] =
      .ok (fun _ => ⟨50, fun _ => 0.2, fun _ => true⟩) := by
    simp [AirGraph.update_airflow, computePhase, applyPhase,
      AirValve.compute_flux, AirValve.apply_flux, AirValve.get_area,
      Function.update_eq_self]
  have h2 : AirGraph.update_airflow 293.15 0.0333
      (fun _ => ⟨50, fun _ => 0.2, fun _ => true⟩)
      [GValve.mk ⟨2, 0, false, 0, 0⟩ 1 2, GValve.mk ⟨1, 0, false, 0, 0⟩ 0 1] =
      .ok (fun _ => ⟨50, fun _ => 0.2, fun _ => true⟩) := by
    simp [AirGraph.update_airflow, computePhase, applyPhase,
      AirValve.compute_flux, AirValve.apply_flux, AirValve.get_area,
      Function.update_eq_self]
  exact ⟨hperm, h1, h2,
    (claim_C7 293.15 0.0333 (fun _ => ⟨50, fun _ => 0.2, fun _ => true⟩)
      _ _ hperm _ _ h1 h2).1⟩

/-- C9: evaluating `Gas.specific_heat_capacity` on a two-point table
(250 K ↦ 1, 300 K ↦ 2) at 350 K — above the highest table
temperature: the lookup loop advances to the last index and then
evaluates `temps[i + 1]` past the end of the table, raising
`IndexError`, instead of the claimed linear extrapolation above the
table. -/
theorem claim_C9 :
    Gas.specific_heat_capacity [250, 300] [1, 2] 350 = .error .indexError := by
  have s0 : shcFindIndex [250, 300] 350 0 = shcFindIndex [250, 300] 350 1 := by
    rw [shcFindIndex.eq_def]
    split
    · rename_i h
      simp at h
    · rename_i ti1 h
      simp at h
      subst h
      norm_num
  have s1 : shcFindIndex [250, 300] 350 1 = .error .indexError := by
    rw [shcFindIndex.eq_def]
    split
    · rfl
    · rename_i ti1 h
      simp at h
  simp only [Gas.specific_heat_capacity, pyGet, List.get?, exceptBind_ok,
    exceptBind_error]
  rw [if_neg (by norm_num : ¬((350 : ℝ) < 250))]
  rw [s0, s1]
  rfl

/-- Core bound of the fill branch: adding `src i / tot * M` of mass per
species (divided by the volume) keeps the weighted density sum within
the pressure target, provided `M` does not exceed the required mass
`delta_S * V / denom`. -/
theorem fill_branch_bound (G d f src : Vec4) (V T maxP dt M tot denom : ℝ)
    (hV : 0 < V) (hT : 0 < T)
    (hdenom : denom = ∑ i, G i * (src i / tot)) (h3 : 0 < denom)
    (hM : M ≤ (maxP / T - ∑ i, G i * (d i + f i * dt)) * V / denom) :
    T * (∑ i, G i * ((d i + (src i / tot * M) / V) + f i * dt)) ≤ maxP := by
  have hsum : (∑ i, G i * ((d i + (src i / tot * M) / V) + f i * dt))
      = (∑ i, G i * (d i + f i * dt)) + denom * (M / V) := by
    rw [hdenom, Finset.sum_mul, ← Finset.sum_add_distrib]
    apply Finset.sum_congr rfl
    intro i _
    ring
  rw [hsum]
  have hM2 : M * denom ≤ (maxP / T - ∑ i, G i * (d i + f i * dt)) * V :=
    (le_div_iff₀ h3).mp hM
  have h4 : denom * (M / V) ≤ maxP / T - ∑ i, G i * (d i + f i * dt) := by
    calc denom * (M / V) = M * denom / V := by ring
      _ ≤ (maxP / T - ∑ i, G i * (d i + f i * dt)) * V / V :=
          (div_le_div_iff_of_pos_right hV).mpr hM2
      _ = maxP / T - ∑ i, G i * (d i + f i * dt) := by
          field_simp
          ring
  have h5 : (∑ i, G i * (d i + f i * dt)) + denom * (M / V) ≤ maxP / T := by
    linarith
  calc T * ((∑ i, G i * (d i + f i * dt)) + denom * (M / V))
      ≤ T * (maxP / T) := mul_le_mul_of_nonneg_left h5 hT.le
    _ = maxP := by field_simp

/-- Total mass distributed by the fill branch equals `M`: the
ratio-weighted shares sum to the chosen total. -/
theorem fill_branch_total (src : Vec4) (M tot : ℝ)
    (htot : tot = ∑ i, src i) (h2 : 0 < tot) :
    (∑ i, src i / tot * M) = M := by
  rw [← Finset.sum_mul, ← Finset.sum_div, ← htot,
    div_self (ne_of_gt h2), one_mul]

/-- C3: `fill_to_capacity` keeps the projected pressure — at the call's
own lookahead convention, post-call densities plus the entry ledger
times `dt` — within `max_pressure` whenever it adds anything; the total
mass removed from the source never exceeds the nonnegative mass
available in it; and each of the three guard cases (already at/above
capacity, empty source, non-pressurizing composition) returns the zero
vector with the tank and source untouched, without raising. -/
theorem claim_C3 (t : AirTank) (T : ℝ) (source : Vec4) (dt : ℝ)
    (hT : 0 < T) (hV : 0 < t.volume) :
    (T * (∑ i, GAS_CONSTANTS i *
        ((t.fill_to_capacity T source dt).1.densities i + t.flux i * dt)) ≤
          t.maxPressure
      ∨ (t.fill_to_capacity T source dt).1 = t) ∧
    (∑ i, (source i - (t.fill_to_capacity T source dt).2.1 i)) ≤
      max (∑ i, source i) 0 ∧
    ((t.maxPressure / T -
        ∑ i, GAS_CONSTANTS i * (t.densities i + t.flux i * dt) ≤ 0 ∨
      (∑ i, source i) ≤ 0 ∨
      (∑ i, GAS_CONSTANTS i * (source i / ∑ j, source j)) ≤ 0) →
      t.fill_to_capacity T source dt = (t, source, fun _ => 0)) := by
  by_cases h1 : t.maxPressure / T -
      ∑ i, GAS_CONSTANTS i * (t.densities i + t.flux i * dt) ≤ 0
  · have hres : t.fill_to_capacity T source dt = (t, source, fun _ => 0) := by
      simp only [AirTank.fill_to_capacity]
      rw [if_pos h1]
    rw [hres]
    refine ⟨Or.inr rfl, ?_, fun _ => rfl⟩
    simpa using le_max_right (∑ i, source i) (0 : ℝ)
  by_cases h2 : (∑ i, source i) ≤ 0
  · have hres : t.fill_to_capacity T source dt = (t, source, fun _ => 0) := by
      simp only [AirTank.fill_to_capacity]
      rw [if_neg h1, if_pos h2]
    rw [hres]
    refine ⟨Or.inr rfl, ?_, fun _ => rfl⟩
    simpa using le_max_right (∑ i, source i) (0 : ℝ)
  by_cases h3 : (∑ i, GAS_CONSTANTS i * (source i / ∑ j, source j)) ≤ 0
  · have hres : t.fill_to_capacity T source dt = (t, source, fun _ => 0) := by
      simp only [AirTank.fill_to_capacity]
      rw [if_neg h1, if_neg h2, if_pos h3]
    rw [hres]
    refine ⟨Or.inr rfl, ?_, fun _ => rfl⟩
    simpa using le_max_right (∑ i, source i) (0 : ℝ)
  · refine ⟨Or.inl ?_, ?_, fun hg => ?_⟩
    · simp only [AirTank.fill_to_capacity]
      rw [if_neg h1, if_neg h2, if_neg h3]
      dsimp only
      exact fill_branch_bound GAS_CONSTANTS t.densities t.flux source t.volume T
        t.maxPressure dt _ (∑ i, source i)
        (∑ x, GAS_CONSTANTS x * (source x / ∑ i, source i))
        hV hT rfl (not_le.mp h3) (min_le_left _ _)
    · simp only [AirTank.fill_to_capacity]
      rw [if_neg h1, if_neg h2, if_neg h3]
      dsimp only
      have e : ∀ q : ℝ, ∀ i : Fin 4,
          source i - (source i - source i / (∑ j, source j) * q)
            = source i / (∑ j, source j) * q := by
        intro q i
        ring
      rw [Finset.sum_congr rfl (fun i _ => e _ i)]
      rw [fill_branch_total source _ (∑ j, source j) rfl (not_le.mp h2)]
      exact le_trans (min_le_right _ _) (le_max_left _ _)
    · rcases hg with hg | hg | hg
      · exact absurd hg h1
      · exact absurd hg h2
      · exact absurd hg h3

/-- C3 witness: instantiating the capacity, source-mass and guard
properties at a concrete tank (volume 1, max pressure 4, empty, zero
ledger) at temperature 2 offered a unit source vector. -/
theorem claim_C3_witness :
    (0 : ℝ) < 2 ∧
    (0 : ℝ) < (AirTank.mk 1 (fun _ => 0) 4 (fun _ => 0)).volume ∧
    ((2 * (∑ i, GAS_CONSTANTS i *
        (((AirTank.mk 1 (fun _ => 0) 4 (fun _ => 0)).fill_to_capacity 2
            (fun _ => 1) 1).1.densities i +
          (AirTank.mk 1 (fun _ => 0) 4 (fun _ => 0)).flux i * 1)) ≤
          (AirTank.mk 1 (fun _ => 0) 4 (fun _ => 0)).maxPressure
      ∨ ((AirTank.mk 1 (fun _ => 0) 4 (fun _ => 0)).fill_to_capacity 2
            (fun _ => 1) 1).1 = AirTank.mk 1 (fun _ => 0) 4 (fun _ => 0)) ∧
    (∑ i : Fin 4, ((fun _ => (1 : ℝ)) i -
        ((AirTank.mk 1 (fun _ => 0) 4 (fun _ => 0)).fill_to_capacity 2
            (fun _ => 1) 1).2.1 i)) ≤
      max (∑ i : Fin 4, (fun _ => (1 : ℝ)) i) 0 ∧
    (((AirTank.mk 1 (fun _ => 0) 4 (fun _ => 0)).maxPressure / 2 -
        ∑ i, GAS_CONSTANTS i *
          ((AirTank.mk 1 (fun _ => 0) 4 (fun _ => 0)).densities i +
            (AirTank.mk 1 (fun _ => 0) 4 (fun _ => 0)).flux i * 1) ≤ 0 ∨
      (∑ i : Fin 4, (fun _ => (1 : ℝ)) i) ≤ 0 ∨
      (∑ i, GAS_CONSTANTS i *
        ((fun _ => (1 : ℝ)) i / ∑ j : Fin 4, (fun _ => (1 : ℝ)) j)) ≤ 0) →
      (AirTank.mk 1 (fun _ => 0) 4 (fun _ => 0)).fill_to_capacity 2
          (fun _ => 1) 1 =
        (AirTank.mk 1 (fun _ => 0) 4 (fun _ => 0), fun _ => 1, fun _ => 0))) :=
  ⟨by norm_num, by norm_num,
    claim_C3 (AirTank.mk 1 (fun _ => 0) 4 (fun _ => 0)) 2 (fun _ => 1) 1
      (by norm_num) (by norm_num)⟩

end ColonySim
